import Mathlib

/-!
Shallow embedding of `driveGUI.py` (VPilot): the worker drive loop
(`Worker.work`, `Worker.abort`), the stub controller (`Model.run`), the
global exception hook (`trap_exc_during_debug`) and the argument parsing
of `__main__`.

The worker runs on its own thread; its externally visible behaviour is the
sequence of messages sent to the DeepGTAV client and of Qt signals emitted
(`sig_msg`, `sig_step`, `sig_image`, `sig_done`).  We model one execution
of `work()` as a function from the environment's choices — for each loop
iteration: the value of the `time.time() < stoptime` test, whether the
queued `abort` slot is delivered during `app.processEvents()`, and the
result of `client.recvMessage()` — to the trace of those events, plus an
outcome recording whether `work()` returned normally or an exception
escaped it.  The iteration environment is given as a finite list;
exhausting the list behaves like the deadline test turning false, which
loses no finite behaviour since the time test is an environment input
anyway.
-/

namespace VPilot

/-- A raw frame payload as received in `message['frame']`. -/
structure Frame where
  bytes : List Nat
  deriving DecidableEq, Repr

/-- A decoded image, the result of `frame2numpy(frame, (320,160))`. -/
structure Img where
  pixels : List Nat
  deriving DecidableEq, Repr

/-- `frame2numpy` is external codec code (`deepgtav.messages`), explicitly
out of scope in the spec; we model it as the canonical reshaping of the raw
bytes, keeping only that it is a function of the received frame. -/
def frame2numpy (f : Frame) (shape : Nat × Nat) : Img :=
  ⟨f.bytes⟩

/-- The stub agent class `Model` of driveGUI.py (no state). -/
structure Model where
  deriving DecidableEq, Repr

/-- `Model.run(self, frame)` returns the literal list
`[1.0, 0.0, 0.0]` (throttle, brake, steering); floats modelled as ℚ. -/
def Model.run (m : Model) (frame : Img) : List ℚ :=
  [1, 0, 0]

/-- A value produced by argparse: values supplied on the command line are
strings, defaults are used as given (here the integer 8000). -/
inductive ArgVal where
  | str (s : String)
  | int (n : Int)
  deriving DecidableEq, Repr

/-- Whether an argparse value is an integer. -/
def ArgVal.isInt : ArgVal → Bool
  | .int _ => true
  | .str _ => false

/-- One observable event of a worker execution: a client message sent, a
message received, or a Qt signal emitted. -/
inductive Event where
  | msg (s : String)
  | openConn (host : String) (port : ArgVal)
  | sendStart (drivingMode : Int)
  | recv (f : Frame)
  | runModel (i : Img)
  | step (id : Nat) (desc : String)
  | image (i : Img)
  | sendCommand (throttle brake steering : ℚ)
  | sendStop
  | close
  | done (id : Nat)
  deriving DecidableEq, Repr

/-- How `work()` ended: normal return, or an exception escaping it
(there is no try/except inside `work`). -/
inductive Outcome where
  | finished
  | exn (name : String)
  deriving DecidableEq, Repr

/-- The result of one `client.recvMessage()` call: a message carrying a
frame, or a connection error raised. -/
inductive RecvResult where
  | ok (f : Frame)
  | connErr
  deriving DecidableEq, Repr

/-- Environment choices for one candidate loop iteration. -/
structure IterEnv where
  /-- value of the `time.time() < stoptime` test at the loop head -/
  timeOk : Bool
  /-- whether the queued `abort` slot is delivered during this
  iteration's `app.processEvents()` call -/
  abortDelivered : Bool
  /-- result of this iteration's `client.recvMessage()` -/
  recv : RecvResult
  /-- value of `time.time()` used in the step description -/
  now : Nat
  deriving DecidableEq, Repr

/-- The `sig_msg` text emitted by `Worker.abort`. -/
def abortMsg (id : Nat) : String :=
  "Worker #" ++ toString id ++ " notified to abort"

/-- The `sig_msg` text emitted at the start of `Worker.work`. -/
def runningMsg (id : Nat) (tn : String) (tid : Nat) : String :=
  "Running worker #" ++ toString id ++ " from thread " ++ tn ++
    " (#" ++ toString tid ++ ")"

/-- The `sig_step` description: `'step ' + str(time.time())`. -/
def stepMsg (now : Nat) : String :=
  "step " ++ toString now

/-- The while loop of `Worker.work`, lines 72–84, plus its sequel lines
88–91.  Per iteration, in source order: loop test
`time.time() < stoptime and not self.__abort`; `app.processEvents()`
(the only point where the queued `abort` slot can run, emitting its
`sig_msg` and setting the flag); `recvMessage` (a connection error here
escapes `work`, skipping everything after the loop); `frame2numpy`;
`model.run`; `sig_step.emit`; `sig_image.emit`; `sendMessage(Commands...)`.
After the loop: `sendMessage(Stop())`; `close()`; `sig_done.emit`. -/
def workLoop (id : Nat) : Bool → List IterEnv → List Event × Outcome
  | _, [] => ([Event.sendStop, Event.close, Event.done id], Outcome.finished)
  | flag, e :: rest =>
    if e.timeOk && !flag then
      let abortEvs := if e.abortDelivered then [Event.msg (abortMsg id)] else []
      match e.recv with
      | RecvResult.connErr => (abortEvs, Outcome.exn "ConnectionError")
      | RecvResult.ok f =>
        let img := frame2numpy f (320, 160)
        let cmds := Model.run ⟨⟩ img
        let r := workLoop id (flag || e.abortDelivered) rest
        (abortEvs ++ Event.recv f :: Event.runModel img ::
           Event.step id (stepMsg e.now) :: Event.image img ::
           Event.sendCommand (cmds.getD 0 0) (cmds.getD 1 0) (cmds.getD 2 0) ::
           r.1,
         r.2)
    else
      ([Event.sendStop, Event.close, Event.done id], Outcome.finished)

/-- `Worker.work` (lines 42–91): emit the running message, open the client
connection with the configured host and port, send `Start` with the
manual-driving scenario (`drivingMode=-1`), then run the loop. -/
def work (id : Nat) (tn : String) (tid : Nat) (host : String)
    (port : ArgVal) (envs : List IterEnv) : List Event × Outcome :=
  let r := workLoop id false envs
  (Event.msg (runningMsg id tn tid) :: Event.openConn host port ::
     Event.sendStart (-1) :: r.1, r.2)

/-- The worker's private cancellation flag `self.__abort`. -/
structure WorkerSt where
  abortFlag : Bool
  deriving DecidableEq, Repr

/-- `Worker.abort` (lines 93–95): emit a `sig_msg` and set the flag. -/
def Worker.abort (id : Nat) (st : WorkerSt) : List Event × WorkerSt :=
  ([Event.msg (abortMsg id)], ⟨true⟩)

/-- `trap_exc_during_debug` (lines 17–19), installed as `sys.excepthook`:
print the exception info. -/
def trap_exc_during_debug (args : List String) : List String :=
  [toString args]

/-- A worker execution together with the process-wide exception hook: if
an exception escapes `work`, the only handling is
`trap_exc_during_debug` printing it; no observer signal is emitted. -/
def runWorkerWithHook (id : Nat) (tn : String) (tid : Nat) (host : String)
    (port : ArgVal) (envs : List IterEnv) : List Event × List String :=
  let r := work id tn tid host port envs
  (r.1,
   match r.2 with
   | Outcome.finished => []
   | Outcome.exn name => trap_exc_during_debug [name])

/-- Parsed command-line configuration. -/
structure Args where
  host : String
  port : ArgVal
  deriving DecidableEq, Repr

/-- The argparse setup of `__main__` (lines 216–219): options `--host`
(default `'localhost'`) and `--port` (default the integer `8000`).
Neither option specifies a `type`, so by argparse semantics a value
supplied on the command line stays the string taken from `argv`, while an
absent option takes its default unchanged. -/
def parse_args (cliHost cliPort : Option String) : Args :=
  ⟨cliHost.getD "localhost",
   match cliPort with
   | some s => ArgVal.str s
   | none => ArgVal.int 8000⟩

/-- Event classifiers used by trace counting. -/
def isRecvEv : Event → Bool
  | .recv _ => true
  | _ => false

def isSendCmdEv : Event → Bool
  | .sendCommand _ _ _ => true
  | _ => false

def isImageEv : Event → Bool
  | .image _ => true
  | _ => false

def isStepEv : Event → Bool
  | .step _ _ => true
  | _ => false

def isDoneEv : Event → Bool
  | .done _ => true
  | _ => false

def isStopEv : Event → Bool
  | .sendStop => true
  | _ => false

def isCloseEv : Event → Bool
  | .close => true
  | _ => false

def isStartEv : Event → Bool
  | .sendStart _ => true
  | _ => false

/-- The observer surface actually connected in `MyWidget.start_thread`
(lines 156–159): `sig_step` (onStep), `sig_done` (onDone), `sig_image`
(onFrame).  `sig_msg` is connected to nothing (the connection is commented
out), so its emissions are not observable by the presentation layer. -/
def observableEv : Event → Bool
  | .step _ _ => true
  | .image _ => true
  | .done _ => true
  | _ => false

/-- Automaton checking the per-iteration event order the loop body actually
produces: receive, then decode+decide, then the notifications (step, then
image), then the command send.  State 0 is the iteration boundary; the
preamble and termination events keep state 0. -/
def orderAux : List Event → Nat → Bool
  | [], st => decide (st = 0)
  | Event.msg _ :: r, 0 => orderAux r 0
  | Event.openConn _ _ :: r, 0 => orderAux r 0
  | Event.sendStart _ :: r, 0 => orderAux r 0
  | Event.sendStop :: r, 0 => orderAux r 0
  | Event.close :: r, 0 => orderAux r 0
  | Event.done _ :: r, 0 => orderAux r 0
  | Event.recv _ :: r, 0 => orderAux r 1
  | Event.runModel _ :: r, 1 => orderAux r 2
  | Event.step _ _ :: r, 2 => orderAux r 3
  | Event.image _ :: r, 3 => orderAux r 4
  | Event.sendCommand _ _ _ :: r, 4 => orderAux r 0
  | _, _ => false

/-- Automaton for the iteration order as the specification states it:
receive, then decide, then the command send, then the notifications. -/
def specOrderAux : List Event → Nat → Bool
  | [], st => decide (st = 0)
  | Event.msg _ :: r, 0 => specOrderAux r 0
  | Event.openConn _ _ :: r, 0 => specOrderAux r 0
  | Event.sendStart _ :: r, 0 => specOrderAux r 0
  | Event.sendStop :: r, 0 => specOrderAux r 0
  | Event.close :: r, 0 => specOrderAux r 0
  | Event.done _ :: r, 0 => specOrderAux r 0
  | Event.recv _ :: r, 0 => specOrderAux r 1
  | Event.runModel _ :: r, 1 => specOrderAux r 2
  | Event.sendCommand _ _ _ :: r, 2 => specOrderAux r 3
  | Event.step _ _ :: r, 3 => specOrderAux r 4
  | Event.image _ :: r, 4 => specOrderAux r 0
  | _, _ => false

/-- Strict alternation of receives and command sends: a send happens only
when exactly one receive is pending, and no second receive happens while a
send is pending.  The Boolean state records a pending receive. -/
def recvSendAltAux : List Event → Bool → Bool
  | [], _ => true
  | Event.recv _ :: r, pending => !pending && recvSendAltAux r true
  | Event.sendCommand _ _ _ :: r, pending => pending && recvSendAltAux r false
  | _ :: r, pending => recvSendAltAux r pending

/-- Request/response pairing: every decide and every frame notification
uses exactly the image decoded from the most recent receive. -/
def pairedAux : List Event → Option Img → Bool
  | [], _ => true
  | Event.recv f :: r, _ => pairedAux r (some (frame2numpy f (320, 160)))
  | Event.runModel i :: r, cur => decide (cur = some i) && pairedAux r cur
  | Event.image i :: r, cur => decide (cur = some i) && pairedAux r cur
  | _ :: r, cur => pairedAux r cur

/-- No `Start` message anywhere in a trace. -/
def noStart (tr : List Event) : Bool :=
  tr.all fun ev => !isStartEv ev

/-- The trace contains exactly one `Start` message, it carries the
manual-driving scenario (`drivingMode = -1`), and no receive and no
command send precedes it. -/
def startFirstOK : List Event → Bool
  | [] => false
  | Event.sendStart d :: r => decide (d = -1) && noStart r
  | Event.recv _ :: _ => false
  | Event.sendCommand _ _ _ :: _ => false
  | _ :: r => startFirstOK r

/-- An iteration environment in which the loop proceeds undisturbed: the
deadline has not passed, no abort is delivered, and the receive succeeds. -/
def cleanIter (x : IterEnv) : Prop :=
  x.timeOk = true ∧ x.abortDelivered = false ∧ ∃ f, x.recv = RecvResult.ok f

theorem workLoop_nil (id : Nat) (flag : Bool) :
    workLoop id flag [] =
      ([Event.sendStop, Event.close, Event.done id], Outcome.finished) :=
  rfl

theorem workLoop_exit (id : Nat) (flag : Bool) (e : IterEnv)
    (rest : List IterEnv) (h : (e.timeOk && !flag) = false) :
    workLoop id flag (e :: rest) =
      ([Event.sendStop, Event.close, Event.done id], Outcome.finished) := by
  simp [workLoop, h]

theorem workLoop_err (id : Nat) (flag : Bool) (e : IterEnv)
    (rest : List IterEnv) (h : (e.timeOk && !flag) = true)
    (hr : e.recv = RecvResult.connErr) :
    workLoop id flag (e :: rest) =
      ((if e.abortDelivered then [Event.msg (abortMsg id)] else []),
        Outcome.exn "ConnectionError") := by
  simp [workLoop, h, hr]

theorem workLoop_ok (id : Nat) (flag : Bool) (e : IterEnv)
    (rest : List IterEnv) (f : Frame) (h : (e.timeOk && !flag) = true)
    (hr : e.recv = RecvResult.ok f) :
    workLoop id flag (e :: rest) =
      ((if e.abortDelivered then [Event.msg (abortMsg id)] else []) ++
         Event.recv f :: Event.runModel (frame2numpy f (320, 160)) ::
         Event.step id (stepMsg e.now) ::
         Event.image (frame2numpy f (320, 160)) ::
         Event.sendCommand 1 0 0 ::
         (workLoop id (flag || e.abortDelivered) rest).1,
       (workLoop id (flag || e.abortDelivered) rest).2) := by
  simp [workLoop, h, hr, Model.run, List.getD]

theorem workLoop_flag_true (id : Nat) (envs : List IterEnv) :
    workLoop id true envs =
      ([Event.sendStop, Event.close, Event.done id], Outcome.finished) := by
  cases envs with
  | nil => rfl
  | cons e rest => simp [workLoop]

theorem workLoop_count_send (id : Nat) (flag : Bool) (envs : List IterEnv) :
    (workLoop id flag envs).1.countP isSendCmdEv =
      (workLoop id flag envs).1.countP isRecvEv := by
  induction envs generalizing flag with
  | nil => rfl
  | cons e rest ih =>
    cases hc : e.timeOk && !flag with
    | false => rw [workLoop_exit id flag e rest hc]; rfl
    | true =>
      cases hr : e.recv with
      | connErr =>
        rw [workLoop_err id flag e rest hc hr]
        cases habort : e.abortDelivered <;> rfl
      | ok f =>
        rw [workLoop_ok id flag e rest f hc hr]
        cases habort : e.abortDelivered <;>
          simp [habort, List.countP_cons, List.countP_append,
            isSendCmdEv, isRecvEv, ih]

theorem workLoop_count_image (id : Nat) (flag : Bool) (envs : List IterEnv) :
    (workLoop id flag envs).1.countP isImageEv =
      (workLoop id flag envs).1.countP isRecvEv := by
  induction envs generalizing flag with
  | nil => rfl
  | cons e rest ih =>
    cases hc : e.timeOk && !flag with
    | false => rw [workLoop_exit id flag e rest hc]; rfl
    | true =>
      cases hr : e.recv with
      | connErr =>
        rw [workLoop_err id flag e rest hc hr]
        cases habort : e.abortDelivered <;> rfl
      | ok f =>
        rw [workLoop_ok id flag e rest f hc hr]
        cases habort : e.abortDelivered <;>
          simp [habort, List.countP_cons, List.countP_append,
            isImageEv, isRecvEv, ih]

theorem workLoop_done_finished (id : Nat) (flag : Bool) (envs : List IterEnv)
    (h : (workLoop id flag envs).2 = Outcome.finished) :
    (workLoop id flag envs).1.countP isDoneEv = 1 := by
  induction envs generalizing flag with
  | nil => rfl
  | cons e rest ih =>
    cases hc : e.timeOk && !flag with
    | false => rw [workLoop_exit id flag e rest hc]; rfl
    | true =>
      cases hr : e.recv with
      | connErr =>
        rw [workLoop_err id flag e rest hc hr] at h
        simp at h
      | ok f =>
        rw [workLoop_ok id flag e rest f hc hr] at h ⊢
        cases habort : e.abortDelivered <;>
          simp_all [List.countP_cons, List.countP_append, isDoneEv, ih]

theorem workLoop_exn_counts (id : Nat) (flag : Bool) (envs : List IterEnv)
    (name : String) (h : (workLoop id flag envs).2 = Outcome.exn name) :
    (workLoop id flag envs).1.countP isDoneEv = 0 ∧
    (workLoop id flag envs).1.countP isStopEv = 0 ∧
    (workLoop id flag envs).1.countP isCloseEv = 0 := by
  induction envs generalizing flag with
  | nil => simp [workLoop_nil] at h
  | cons e rest ih =>
    cases hc : e.timeOk && !flag with
    | false => rw [workLoop_exit id flag e rest hc] at h; simp at h
    | true =>
      cases hr : e.recv with
      | connErr =>
        rw [workLoop_err id flag e rest hc hr]
        cases habort : e.abortDelivered <;>
          simp [habort, List.countP_cons, isDoneEv, isStopEv, isCloseEv]
      | ok f =>
        rw [workLoop_ok id flag e rest f hc hr] at h ⊢
        obtain ⟨ih1, ih2, ih3⟩ := ih (flag || e.abortDelivered) h
        cases habort : e.abortDelivered <;>
          simp_all [List.countP_cons, List.countP_append,
            isDoneEv, isStopEv, isCloseEv]

theorem workLoop_finished_suffix (id : Nat) (flag : Bool)
    (envs : List IterEnv)
    (h : (workLoop id flag envs).2 = Outcome.finished) :
    ∃ t, (workLoop id flag envs).1 =
      t ++ [Event.sendStop, Event.close, Event.done id] := by
  induction envs generalizing flag with
  | nil => exact ⟨[], rfl⟩
  | cons e rest ih =>
    cases hc : e.timeOk && !flag with
    | false => rw [workLoop_exit id flag e rest hc]; exact ⟨[], rfl⟩
    | true =>
      cases hr : e.recv with
      | connErr =>
        rw [workLoop_err id flag e rest hc hr] at h
        simp at h
      | ok f =>
        rw [workLoop_ok id flag e rest f hc hr] at h ⊢
        obtain ⟨t, ht⟩ := ih (flag || e.abortDelivered) h
        refine ⟨(if e.abortDelivered then [Event.msg (abortMsg id)] else []) ++
          Event.recv f :: Event.runModel (frame2numpy f (320, 160)) ::
          Event.step id (stepMsg e.now) ::
          Event.image (frame2numpy f (320, 160)) ::
          Event.sendCommand 1 0 0 :: t, ?_⟩
        rw [ht]
        simp

theorem workLoop_order (id : Nat) (flag : Bool) (envs : List IterEnv) :
    orderAux (workLoop id flag envs).1 0 = true := by
  induction envs generalizing flag with
  | nil => rfl
  | cons e rest ih =>
    cases hc : e.timeOk && !flag with
    | false => rw [workLoop_exit id flag e rest hc]; rfl
    | true =>
      cases hr : e.recv with
      | connErr =>
        rw [workLoop_err id flag e rest hc hr]
        cases habort : e.abortDelivered <;> rfl
      | ok f =>
        rw [workLoop_ok id flag e rest f hc hr]
        cases habort : e.abortDelivered <;> simp [habort, orderAux, ih]

theorem workLoop_alt (id : Nat) (flag : Bool) (envs : List IterEnv) :
    recvSendAltAux (workLoop id flag envs).1 false = true := by
  induction envs generalizing flag with
  | nil => rfl
  | cons e rest ih =>
    cases hc : e.timeOk && !flag with
    | false => rw [workLoop_exit id flag e rest hc]; rfl
    | true =>
      cases hr : e.recv with
      | connErr =>
        rw [workLoop_err id flag e rest hc hr]
        cases habort : e.abortDelivered <;> rfl
      | ok f =>
        rw [workLoop_ok id flag e rest f hc hr]
        cases habort : e.abortDelivered <;>
          simp [habort, recvSendAltAux, ih]

theorem workLoop_paired (id : Nat) (flag : Bool) (envs : List IterEnv)
    (cur : Option Img) :
    pairedAux (workLoop id flag envs).1 cur = true := by
  induction envs generalizing flag cur with
  | nil => rfl
  | cons e rest ih =>
    cases hc : e.timeOk && !flag with
    | false => rw [workLoop_exit id flag e rest hc]; rfl
    | true =>
      cases hr : e.recv with
      | connErr =>
        rw [workLoop_err id flag e rest hc hr]
        cases habort : e.abortDelivered <;> rfl
      | ok f =>
        rw [workLoop_ok id flag e rest f hc hr]
        cases habort : e.abortDelivered <;>
          simp [habort, pairedAux, ih]

theorem workLoop_noStart (id : Nat) (flag : Bool) (envs : List IterEnv) :
    noStart (workLoop id flag envs).1 = true := by
  induction envs generalizing flag with
  | nil => rfl
  | cons e rest ih =>
    cases hc : e.timeOk && !flag with
    | false => rw [workLoop_exit id flag e rest hc]; rfl
    | true =>
      cases hr : e.recv with
      | connErr =>
        rw [workLoop_err id flag e rest hc hr]
        cases habort : e.abortDelivered <;> rfl
      | ok f =>
        rw [workLoop_ok id flag e rest f hc hr]
        cases habort : e.abortDelivered <;> simp_all [noStart, isStartEv]

theorem workLoop_abort_tail (id : Nat) (e : IterEnv)
    (he : e.abortDelivered = true) (pref : List IterEnv) :
    ∀ (flag : Bool) (rest : List IterEnv),
    workLoop id flag (pref ++ e :: rest) = workLoop id flag (pref ++ [e]) := by
  induction pref with
  | nil =>
    intro flag rest
    simp only [List.nil_append]
    cases hc : e.timeOk && !flag with
    | false =>
      rw [workLoop_exit id flag e rest hc, workLoop_exit id flag e [] hc]
    | true =>
      cases hr : e.recv with
      | connErr =>
        rw [workLoop_err id flag e rest hc hr,
          workLoop_err id flag e [] hc hr]
      | ok f =>
        rw [workLoop_ok id flag e rest f hc hr,
          workLoop_ok id flag e [] f hc hr, he]
        simp [workLoop_flag_true]
  | cons x pref ih =>
    intro flag rest
    simp only [List.cons_append]
    cases hc : x.timeOk && !flag with
    | false =>
      rw [workLoop_exit id flag x _ hc, workLoop_exit id flag x _ hc]
    | true =>
      cases hr : x.recv with
      | connErr =>
        rw [workLoop_err id flag x _ hc hr, workLoop_err id flag x _ hc hr]
      | ok f =>
        rw [workLoop_ok id flag x _ f hc hr,
          workLoop_ok id flag x _ f hc hr, ih]

theorem workLoop_clean_prefix (id : Nat) (pref : List IterEnv)
    (h : ∀ x ∈ pref, cleanIter x) (tail : List IterEnv) :
    (workLoop id false (pref ++ tail)).1.countP isRecvEv =
      pref.length + (workLoop id false tail).1.countP isRecvEv ∧
    (workLoop id false (pref ++ tail)).2 = (workLoop id false tail).2 := by
  induction pref with
  | nil => simp
  | cons x pref ih =>
    obtain ⟨ht, ha, f, hf⟩ := h x (by simp)
    have hc : (x.timeOk && !false) = true := by simp [ht]
    have hrec := ih fun y hy => h y (by simp [hy])
    simp only [List.cons_append]
    rw [workLoop_ok id false x _ f hc hf, ha]
    simp only [Bool.or_false, List.nil_append, if_neg Bool.false_ne_true,
      List.countP_cons, List.length_cons]
    constructor
    · simp [isRecvEv, hrec.1]
      omega
    · exact hrec.2

/-- C1 (counterexample): on a run with one successful cycle, the worker
trace emits the step and image notifications BEFORE the command send for
that frame, so the spec's order receive → decide → send → notify is
violated: the iteration-order automaton for the spec's order rejects the
trace, shown explicitly. -/
theorem c1_counterexample :
    specOrderAux (work 0 "thread_0" 1 "localhost" (ArgVal.int 8000)
        [⟨true, false, RecvResult.ok ⟨[7]⟩, 5⟩]).1 0 = false ∧
    (work 0 "thread_0" 1 "localhost" (ArgVal.int 8000)
        [⟨true, false, RecvResult.ok ⟨[7]⟩, 5⟩]).1 =
      [Event.msg (runningMsg 0 "thread_0" 1),
       Event.openConn "localhost" (ArgVal.int 8000),
       Event.sendStart (-1),
       Event.recv ⟨[7]⟩,
       Event.runModel ⟨[7]⟩,
       Event.step 0 (stepMsg 5),
       Event.image ⟨[7]⟩,
       Event.sendCommand 1 0 0,
       Event.sendStop, Event.close, Event.done 0] := by
  constructor <;> rfl

/-- C1 (amended): within every iteration of the drive loop the operations
occur in the fixed order receive, then decide, then notify (onStep and
onFrame), then send: the observer notifications for a frame are emitted
just BEFORE the command send for that frame, never after it. -/
theorem c1_amended_order (id : Nat) (tn : String) (tid : Nat)
    (host : String) (port : ArgVal) (envs : List IterEnv) :
    orderAux (work id tn tid host port envs).1 0 = true := by
  simp [work, orderAux, workLoop_order]

/-- C4: in every worker run, commands are sent exactly as many times as
frames are received, onFrame is emitted exactly as many times as frames
are received, receives and sends strictly alternate, and every decide and
every onFrame uses exactly the image decoded from the most recent
receive (strict request/response pairing, no pipelining). -/
theorem c4_alternation (id : Nat) (tn : String) (tid : Nat) (host : String)
    (port : ArgVal) (envs : List IterEnv) :
    (work id tn tid host port envs).1.countP isSendCmdEv =
      (work id tn tid host port envs).1.countP isRecvEv ∧
    (work id tn tid host port envs).1.countP isImageEv =
      (work id tn tid host port envs).1.countP isRecvEv ∧
    recvSendAltAux (work id tn tid host port envs).1 false = true ∧
    pairedAux (work id tn tid host port envs).1 none = true := by
  refine ⟨?_, ?_, ?_, ?_⟩ <;>
    simp [work, List.countP_cons, isSendCmdEv, isRecvEv, isImageEv,
      recvSendAltAux, pairedAux, workLoop_count_send, workLoop_count_image,
      workLoop_alt, workLoop_paired]

/-- C5: the stub controller `Model.run` returns the literal triple
(1.0, 0.0, 0.0) — full throttle, zero brake, zero steering — for every
input frame. -/
theorem c5_model_constant (m : Model) (frame : Img) :
    Model.run m frame = [1, 0, 0] :=
  rfl

/-- C6: if the deadline test is already false when the loop starts, zero
iterations occur — no receive, no decide, no command send, no onFrame —
and the run is exactly the preamble followed by the stop message, the
close, and onDone. -/
theorem c6_past_deadline (id : Nat) (tn : String) (tid : Nat)
    (host : String) (port : ArgVal) (e : IterEnv) (rest : List IterEnv)
    (h : e.timeOk = false) :
    work id tn tid host port (e :: rest) =
      ([Event.msg (runningMsg id tn tid), Event.openConn host port,
        Event.sendStart (-1), Event.sendStop, Event.close, Event.done id],
       Outcome.finished) ∧
    (work id tn tid host port (e :: rest)).1.countP isRecvEv = 0 ∧
    (work id tn tid host port (e :: rest)).1.countP isSendCmdEv = 0 ∧
    (work id tn tid host port (e :: rest)).1.countP isImageEv = 0 := by
  have hx : (e.timeOk && !false) = false := by simp [h]
  have hw := workLoop_exit id false e rest hx
  refine ⟨?_, ?_, ?_, ?_⟩ <;>
    simp [work, hw, List.countP_cons, isRecvEv, isSendCmdEv, isImageEv]

/-- Witness for C6: a concrete first iteration whose deadline test is
false, evaluated. -/
theorem c6_witness :
    (⟨false, false, RecvResult.ok ⟨[1]⟩, 0⟩ : IterEnv).timeOk = false ∧
    work 0 "thread_0" 1 "localhost" (ArgVal.int 8000)
        [⟨false, false, RecvResult.ok ⟨[1]⟩, 0⟩] =
      ([Event.msg (runningMsg 0 "thread_0" 1),
        Event.openConn "localhost" (ArgVal.int 8000),
        Event.sendStart (-1), Event.sendStop, Event.close, Event.done 0],
       Outcome.finished) :=
  ⟨rfl, (c6_past_deadline 0 "thread_0" 1 "localhost" (ArgVal.int 8000)
      ⟨false, false, RecvResult.ok ⟨[1]⟩, 0⟩ [] rfl).1⟩

/-- C10: every worker run sends exactly one Start message, it carries the
manual-driving scenario (drivingMode = -1), and no receive and no command
send precedes it. -/
theorem c10_start_message (id : Nat) (tn : String) (tid : Nat)
    (host : String) (port : ArgVal) (envs : List IterEnv) :
    startFirstOK (work id tn tid host port envs).1 = true := by
  simp [work, startFirstOK, workLoop_noStart]

/-- C2 (counterexample): three successful cycles followed by a connection
error on the fourth receive.  The claim requires the stop message, the
close, and onDone(0) to still happen; in the code the exception escapes
`work` before the post-loop lines, so none of them occur (sends and
onFrame are 3 as expected). -/
theorem c2_counterexample :
    (work 0 "thread_0" 1 "localhost" (ArgVal.int 8000)
        [⟨true, false, RecvResult.ok ⟨[1]⟩, 1⟩,
         ⟨true, false, RecvResult.ok ⟨[2]⟩, 2⟩,
         ⟨true, false, RecvResult.ok ⟨[3]⟩, 3⟩,
         ⟨true, false, RecvResult.connErr, 4⟩]).2 =
      Outcome.exn "ConnectionError" ∧
    (work 0 "thread_0" 1 "localhost" (ArgVal.int 8000)
        [⟨true, false, RecvResult.ok ⟨[1]⟩, 1⟩,
         ⟨true, false, RecvResult.ok ⟨[2]⟩, 2⟩,
         ⟨true, false, RecvResult.ok ⟨[3]⟩, 3⟩,
         ⟨true, false, RecvResult.connErr, 4⟩]).1.countP isSendCmdEv = 3 ∧
    (work 0 "thread_0" 1 "localhost" (ArgVal.int 8000)
        [⟨true, false, RecvResult.ok ⟨[1]⟩, 1⟩,
         ⟨true, false, RecvResult.ok ⟨[2]⟩, 2⟩,
         ⟨true, false, RecvResult.ok ⟨[3]⟩, 3⟩,
         ⟨true, false, RecvResult.connErr, 4⟩]).1.countP isImageEv = 3 ∧
    (work 0 "thread_0" 1 "localhost" (ArgVal.int 8000)
        [⟨true, false, RecvResult.ok ⟨[1]⟩, 1⟩,
         ⟨true, false, RecvResult.ok ⟨[2]⟩, 2⟩,
         ⟨true, false, RecvResult.ok ⟨[3]⟩, 3⟩,
         ⟨true, false, RecvResult.connErr, 4⟩]).1.countP isStopEv = 0 ∧
    (work 0 "thread_0" 1 "localhost" (ArgVal.int 8000)
        [⟨true, false, RecvResult.ok ⟨[1]⟩, 1⟩,
         ⟨true, false, RecvResult.ok ⟨[2]⟩, 2⟩,
         ⟨true, false, RecvResult.ok ⟨[3]⟩, 3⟩,
         ⟨true, false, RecvResult.connErr, 4⟩]).1.countP isCloseEv = 0 ∧
    (work 0 "thread_0" 1 "localhost" (ArgVal.int 8000)
        [⟨true, false, RecvResult.ok ⟨[1]⟩, 1⟩,
         ⟨true, false, RecvResult.ok ⟨[2]⟩, 2⟩,
         ⟨true, false, RecvResult.ok ⟨[3]⟩, 3⟩,
         ⟨true, false, RecvResult.connErr, 4⟩]).1.countP isDoneEv = 0 := by
  refine ⟨rfl, ?_, ?_, ?_, ?_, ?_⟩ <;> rfl

/-- C2 (amended): when the loop exits by deadline or cancellation the run
ends with the stop message, the close, and onDone; but when receive raises
a connection error after N successful cycles the exception escapes `work`:
no stop message, no close, and no onDone occur, while exactly N command
sends and N onFrame notifications were made. -/
theorem c2_amended (id : Nat) (tn : String) (tid : Nat) (host : String)
    (port : ArgVal) (envs goodEnvs : List IterEnv) (t : Nat)
    (hgood : ∀ x ∈ goodEnvs, cleanIter x) :
    ((work id tn tid host port envs).2 = Outcome.finished →
      ∃ u, (work id tn tid host port envs).1 =
        u ++ [Event.sendStop, Event.close, Event.done id]) ∧
    ((work id tn tid host port
        (goodEnvs ++ [⟨true, false, RecvResult.connErr, t⟩])).2 =
      Outcome.exn "ConnectionError" ∧
     (work id tn tid host port
        (goodEnvs ++ [⟨true, false, RecvResult.connErr, t⟩])).1.countP
        isSendCmdEv = goodEnvs.length ∧
     (work id tn tid host port
        (goodEnvs ++ [⟨true, false, RecvResult.connErr, t⟩])).1.countP
        isImageEv = goodEnvs.length ∧
     (work id tn tid host port
        (goodEnvs ++ [⟨true, false, RecvResult.connErr, t⟩])).1.countP
        isStopEv = 0 ∧
     (work id tn tid host port
        (goodEnvs ++ [⟨true, false, RecvResult.connErr, t⟩])).1.countP
        isCloseEv = 0 ∧
     (work id tn tid host port
        (goodEnvs ++ [⟨true, false, RecvResult.connErr, t⟩])).1.countP
        isDoneEv = 0) := by
  have hpre := workLoop_clean_prefix id goodEnvs hgood
    [⟨true, false, RecvResult.connErr, t⟩]
  have htail2 : (workLoop id false
      [(⟨true, false, RecvResult.connErr, t⟩ : IterEnv)]).2 =
      Outcome.exn "ConnectionError" := rfl
  have htail1 : (workLoop id false
      [(⟨true, false, RecvResult.connErr, t⟩ : IterEnv)]).1.countP
      isRecvEv = 0 := rfl
  have hout : (workLoop id false
      (goodEnvs ++ [⟨true, false, RecvResult.connErr, t⟩])).2 =
      Outcome.exn "ConnectionError" := by rw [hpre.2, htail2]
  have hrecv : (workLoop id false
      (goodEnvs ++ [⟨true, false, RecvResult.connErr, t⟩])).1.countP
      isRecvEv = goodEnvs.length := by
    rw [hpre.1, htail1]
    omega
  have hexn := workLoop_exn_counts id false
    (goodEnvs ++ [⟨true, false, RecvResult.connErr, t⟩])
    "ConnectionError" hout
  constructor
  · intro hfin
    obtain ⟨u, hu⟩ := workLoop_finished_suffix id false envs hfin
    refine ⟨Event.msg (runningMsg id tn tid) :: Event.openConn host port ::
      Event.sendStart (-1) :: u, ?_⟩
    simp [work, hu]
  · refine ⟨hout, ?_, ?_, ?_, ?_, ?_⟩ <;>
      simp [work, List.countP_cons, isSendCmdEv, isImageEv, isStopEv,
        isCloseEv, isDoneEv, isRecvEv, workLoop_count_send,
        workLoop_count_image, hrecv, hexn.1, hexn.2.1, hexn.2.2]

/-- Witness for C2 (amended): one successful cycle then a connection
error, evaluated concretely. -/
theorem c2_amended_witness :
    (∀ x ∈ ([⟨true, false, RecvResult.ok ⟨[9]⟩, 1⟩] : List IterEnv),
      cleanIter x) ∧
    ((work 0 "thread_0" 1 "localhost" (ArgVal.int 8000)
        ([⟨true, false, RecvResult.ok ⟨[9]⟩, 1⟩] ++
          [⟨true, false, RecvResult.connErr, 2⟩])).2 =
      Outcome.exn "ConnectionError" ∧
     (work 0 "thread_0" 1 "localhost" (ArgVal.int 8000)
        ([⟨true, false, RecvResult.ok ⟨[9]⟩, 1⟩] ++
          [⟨true, false, RecvResult.connErr, 2⟩])).1.countP
        isSendCmdEv = 1 ∧
     (work 0 "thread_0" 1 "localhost" (ArgVal.int 8000)
        ([⟨true, false, RecvResult.ok ⟨[9]⟩, 1⟩] ++
          [⟨true, false, RecvResult.connErr, 2⟩])).1.countP
        isImageEv = 1 ∧
     (work 0 "thread_0" 1 "localhost" (ArgVal.int 8000)
        ([⟨true, false, RecvResult.ok ⟨[9]⟩, 1⟩] ++
          [⟨true, false, RecvResult.connErr, 2⟩])).1.countP
        isStopEv = 0 ∧
     (work 0 "thread_0" 1 "localhost" (ArgVal.int 8000)
        ([⟨true, false, RecvResult.ok ⟨[9]⟩, 1⟩] ++
          [⟨true, false, RecvResult.connErr, 2⟩])).1.countP
        isCloseEv = 0 ∧
     (work 0 "thread_0" 1 "localhost" (ArgVal.int 8000)
        ([⟨true, false, RecvResult.ok ⟨[9]⟩, 1⟩] ++
          [⟨true, false, RecvResult.connErr, 2⟩])).1.countP
        isDoneEv = 0) := by
  have h : ∀ x ∈ ([⟨true, false, RecvResult.ok ⟨[9]⟩, 1⟩] : List IterEnv),
      cleanIter x := by
    intro x hx
    simp at hx
    subst hx
    exact ⟨rfl, rfl, ⟨[9]⟩, rfl⟩
  exact ⟨h, (c2_amended 0 "thread_0" 1 "localhost" (ArgVal.int 8000) []
    [⟨true, false, RecvResult.ok ⟨[9]⟩, 1⟩] 2 h).2⟩

/-- C3 (counterexample): a connection error on the first receive.  The
claim requires the error to be caught at the iteration boundary and
converted into a terminal exit plus an onError notification; in the code
the exception escapes `work` (outcome `exn`) and the trace shows that no
notification of any kind was emitted. -/
theorem c3_counterexample :
    (work 0 "thread_0" 1 "localhost" (ArgVal.int 8000)
        [⟨true, false, RecvResult.connErr, 0⟩]).2 =
      Outcome.exn "ConnectionError" ∧
    (work 0 "thread_0" 1 "localhost" (ArgVal.int 8000)
        [⟨true, false, RecvResult.connErr, 0⟩]).1 =
      [Event.msg (runningMsg 0 "thread_0" 1),
       Event.openConn "localhost" (ArgVal.int 8000),
       Event.sendStart (-1)] :=
  ⟨rfl, rfl⟩

/-- C3 (amended): errors in the worker loop are not caught at the
iteration boundary: the exception escapes `work()` and is handled only by
the process-wide hook `trap_exc_during_debug`, which prints it; no
`onError` channel exists and no onDone, stop message, or close happens on
the error path. -/
theorem c3_amended (id : Nat) (tn : String) (tid : Nat) (host : String)
    (port : ArgVal) (envs : List IterEnv) (name : String)
    (h : (work id tn tid host port envs).2 = Outcome.exn name) :
    (runWorkerWithHook id tn tid host port envs).2 =
      trap_exc_during_debug [name] ∧
    (work id tn tid host port envs).1.countP isDoneEv = 0 ∧
    (work id tn tid host port envs).1.countP isStopEv = 0 ∧
    (work id tn tid host port envs).1.countP isCloseEv = 0 := by
  have h2 : (workLoop id false envs).2 = Outcome.exn name := h
  have hexn := workLoop_exn_counts id false envs name h2
  refine ⟨?_, ?_, ?_, ?_⟩ <;>
    simp [runWorkerWithHook, work, h2, List.countP_cons, isDoneEv,
      isStopEv, isCloseEv, hexn.1, hexn.2.1, hexn.2.2]

/-- Witness for C3 (amended): a concrete failing receive, the hypothesis
evaluated, the hook output computed. -/
theorem c3_amended_witness :
    (work 0 "thread_0" 1 "localhost" (ArgVal.int 8000)
        [⟨true, true, RecvResult.connErr, 0⟩]).2 =
      Outcome.exn "ConnectionError" ∧
    ((runWorkerWithHook 0 "thread_0" 1 "localhost" (ArgVal.int 8000)
        [⟨true, true, RecvResult.connErr, 0⟩]).2 =
      trap_exc_during_debug ["ConnectionError"] ∧
     (work 0 "thread_0" 1 "localhost" (ArgVal.int 8000)
        [⟨true, true, RecvResult.connErr, 0⟩]).1.countP isDoneEv = 0 ∧
     (work 0 "thread_0" 1 "localhost" (ArgVal.int 8000)
        [⟨true, true, RecvResult.connErr, 0⟩]).1.countP isStopEv = 0 ∧
     (work 0 "thread_0" 1 "localhost" (ArgVal.int 8000)
        [⟨true, true, RecvResult.connErr, 0⟩]).1.countP isCloseEv = 0) :=
  ⟨rfl, c3_amended 0 "thread_0" 1 "localhost" (ArgVal.int 8000)
    [⟨true, true, RecvResult.connErr, 0⟩] "ConnectionError" rfl⟩

/-- C7: cancellation is cooperative.  If the abort signal is delivered
during iteration i's `processEvents`, that in-flight iteration still
completes (its receive counts), the trace does not depend on any
environment past that iteration (no new iteration starts once the flag is
set), and the loop then takes the normal termination path. -/
theorem c7_cancellation (id : Nat) (tn : String) (tid : Nat)
    (host : String) (port : ArgVal) (pref : List IterEnv) (e : IterEnv)
    (rest : List IterEnv) (f : Frame)
    (hclean : ∀ x ∈ pref, cleanIter x)
    (ht : e.timeOk = true) (ha : e.abortDelivered = true)
    (hr : e.recv = RecvResult.ok f) :
    work id tn tid host port (pref ++ e :: rest) =
      work id tn tid host port (pref ++ [e]) ∧
    (work id tn tid host port (pref ++ e :: rest)).1.countP isRecvEv =
      pref.length + 1 ∧
    (work id tn tid host port (pref ++ e :: rest)).2 = Outcome.finished := by
  have hw := workLoop_abort_tail id e ha pref false rest
  have hc : (e.timeOk && !false) = true := by simp [ht]
  have hone := workLoop_ok id false e [] f hc hr
  have hpre := workLoop_clean_prefix id pref hclean [e]
  have hcount1 : (workLoop id false [e]).1.countP isRecvEv = 1 := by
    rw [hone, ha]
    simp [List.countP_cons, List.countP_append, isRecvEv,
      workLoop_flag_true]
  have hout1 : (workLoop id false [e]).2 = Outcome.finished := by
    rw [hone, ha]
    simp [workLoop_flag_true]
  refine ⟨?_, ?_, ?_⟩
  · simp [work, hw]
  · simp [work, hw, List.countP_cons, isRecvEv, hpre.1, hcount1]
  · show (workLoop id false (pref ++ e :: rest)).2 = Outcome.finished
    rw [hw, hpre.2, hout1]

/-- Witness for C7: one clean iteration, then the abort delivery, then one
more environment entry that is provably never consumed. -/
theorem c7_witness :
    (∀ x ∈ ([⟨true, false, RecvResult.ok ⟨[1]⟩, 1⟩] : List IterEnv),
      cleanIter x) ∧
    (work 0 "thread_0" 1 "localhost" (ArgVal.int 8000)
        ([⟨true, false, RecvResult.ok ⟨[1]⟩, 1⟩] ++
          ⟨true, true, RecvResult.ok ⟨[2]⟩, 2⟩ ::
            [⟨true, false, RecvResult.ok ⟨[3]⟩, 3⟩]) =
      work 0 "thread_0" 1 "localhost" (ArgVal.int 8000)
        ([⟨true, false, RecvResult.ok ⟨[1]⟩, 1⟩] ++
          [⟨true, true, RecvResult.ok ⟨[2]⟩, 2⟩]) ∧
     (work 0 "thread_0" 1 "localhost" (ArgVal.int 8000)
        ([⟨true, false, RecvResult.ok ⟨[1]⟩, 1⟩] ++
          ⟨true, true, RecvResult.ok ⟨[2]⟩, 2⟩ ::
            [⟨true, false, RecvResult.ok ⟨[3]⟩, 3⟩])).1.countP
        isRecvEv = 2 ∧
     (work 0 "thread_0" 1 "localhost" (ArgVal.int 8000)
        ([⟨true, false, RecvResult.ok ⟨[1]⟩, 1⟩] ++
          ⟨true, true, RecvResult.ok ⟨[2]⟩, 2⟩ ::
            [⟨true, false, RecvResult.ok ⟨[3]⟩, 3⟩])).2 =
       Outcome.finished) := by
  have h : ∀ x ∈ ([⟨true, false, RecvResult.ok ⟨[1]⟩, 1⟩] : List IterEnv),
      cleanIter x := by
    intro x hx
    simp at hx
    subst hx
    exact ⟨rfl, rfl, ⟨[1]⟩, rfl⟩
  exact ⟨h, c7_cancellation 0 "thread_0" 1 "localhost" (ArgVal.int 8000)
    [⟨true, false, RecvResult.ok ⟨[1]⟩, 1⟩]
    ⟨true, true, RecvResult.ok ⟨[2]⟩, 2⟩
    [⟨true, false, RecvResult.ok ⟨[3]⟩, 3⟩] ⟨[2]⟩ h rfl rfl rfl⟩

/-- C8: calling abort after the loop has terminated is unobservable
through the connected observer surface: the abort call emits nothing
observable (its `sig_msg` is connected to no slot), the combined trace
still contains exactly one onDone, and only the private flag changes. -/
theorem c8_abort_after_done (id : Nat) (tn : String) (tid : Nat)
    (host : String) (port : ArgVal) (envs : List IterEnv) (st : WorkerSt)
    (hfin : (work id tn tid host port envs).2 = Outcome.finished) :
    (Worker.abort id st).1.filter observableEv = [] ∧
    ((work id tn tid host port envs).1 ++
      (Worker.abort id st).1).countP isDoneEv = 1 ∧
    (Worker.abort id st).2.abortFlag = true := by
  have h2 : (workLoop id false envs).2 = Outcome.finished := hfin
  have hd := workLoop_done_finished id false envs h2
  refine ⟨rfl, ?_, rfl⟩
  simp [work, Worker.abort, List.countP_append, List.countP_cons,
    isDoneEv, observableEv, abortMsg, hd]

/-- Witness for C8: a run with an empty iteration environment terminates
normally; aborting afterwards is evaluated concretely. -/
theorem c8_witness :
    (work 0 "thread_0" 1 "localhost" (ArgVal.int 8000) []).2 =
      Outcome.finished ∧
    ((Worker.abort 0 ⟨false⟩).1.filter observableEv = [] ∧
     ((work 0 "thread_0" 1 "localhost" (ArgVal.int 8000) []).1 ++
       (Worker.abort 0 ⟨false⟩).1).countP isDoneEv = 1 ∧
     (Worker.abort 0 ⟨false⟩).2.abortFlag = true) :=
  ⟨rfl, c8_abort_after_done 0 "thread_0" 1 "localhost" (ArgVal.int 8000)
    [] ⟨false⟩ rfl⟩

/-- C9 (counterexample): with `--port 9000` on the command line, argparse
(no `type=` given) yields the string "9000", not an integer, and that
string is what reaches the client connection open call. -/
theorem c9_counterexample :
    ArgVal.isInt (parse_args none (some "9000")).port = false ∧
    (parse_args none (some "9000")).port = ArgVal.str "9000" ∧
    Event.openConn (parse_args none (some "9000")).host
        (parse_args none (some "9000")).port ∈
      (work 0 "thread_0" 1 (parse_args none (some "9000")).host
        (parse_args none (some "9000")).port []).1 := by
  refine ⟨rfl, rfl, ?_⟩
  simp [work, parse_args]

/-- C9 (amended): the only recognized options are host (string, default
"localhost") and port (default: the integer 8000; a port supplied on the
command line stays the string given), and whatever values result are
passed through unchanged to the client connection open call. -/
theorem c9_amended (id : Nat) (tn : String) (tid : Nat)
    (cliHost cliPort : Option String) (envs : List IterEnv) :
    parse_args none none = ⟨"localhost", ArgVal.int 8000⟩ ∧
    (∀ s, (parse_args cliHost (some s)).port = ArgVal.str s) ∧
    Event.openConn (parse_args cliHost cliPort).host
        (parse_args cliHost cliPort).port ∈
      (work id tn tid (parse_args cliHost cliPort).host
        (parse_args cliHost cliPort).port envs).1 := by
  refine ⟨rfl, fun s => rfl, ?_⟩
  simp [work]

end VPilot
